import Mathlib

/-!
Shallow embedding of the Alert-Load-Balancing dispatch engine:
config.py (ProviderConfig), providers/provider.py (Provider),
providers/base.py and providers/generic.py (the quota-tracking provider
variant), load_balancer.py (the three balancer classes and the factory),
and the balancer-initialization logic of main.py (startup_event).
The HTTP POST performed by a provider is modelled by a boolean oracle
giving the network outcome; everything else is translated directly.
-/

namespace AlertLB

/-- ProviderConfig (config.py): the fields the dispatch engine reads.
headers and timeout only parameterize the HTTP call, which is an oracle
in this embedding, so they are omitted. -/
structure ProviderConfig where
  name : String
  enabled : Bool
  endpoint : String
deriving DecidableEq, Inhabited

/-- An inbound webhook payload (Dict[str, Any] in the source); the engine
never inspects it, it is only handed to the transport. -/
structure Payload where
  fields : List (String × String)
deriving DecidableEq, Inhabited

/-- Provider (providers/provider.py): wraps its configuration. -/
structure Provider where
  config : ProviderConfig
deriving DecidableEq, Inhabited

/-- Provider.name (provider.py). -/
def Provider.name (p : Provider) : String := p.config.name

/-- Provider.is_available (provider.py lines 27-35): the enabled flag alone. -/
def Provider.is_available (p : Provider) : Bool := p.config.enabled

/-- Provider.send_webhook (provider.py lines 37-63): performs one HTTP POST
of the payload and returns whether it succeeded; the network outcome is the
oracle deliver. No provider state is read or written beyond the config used
to address the request, and no counter is updated. -/
def Provider.send_webhook (p : Provider) (payload : Payload)
    (deliver : Payload → Provider → Bool) : Bool := deliver payload p

/-- The configuration attributes read by providers/base.py: the ProviderConfig
fields plus the quota counters used_quota / free_quota that BaseProvider reads
and writes (these counters are the quota mode of the data model). -/
structure QuotaConfig where
  name : String
  enabled : Bool
  endpoint : String
  used_quota : Nat
  free_quota : Nat
deriving DecidableEq, Inhabited

/-- GenericProvider (providers/generic.py over providers/base.py). -/
structure GenericProvider where
  config : QuotaConfig
deriving DecidableEq, Inhabited

/-- BaseProvider.name (base.py). -/
def GenericProvider.name (p : GenericProvider) : String := p.config.name

/-- BaseProvider.is_available (base.py lines 22-27): if not enabled then
False, otherwise used_quota < free_quota. -/
def GenericProvider.is_available (p : GenericProvider) : Bool :=
  if !p.config.enabled then false
  else decide (p.config.used_quota < p.config.free_quota)

/-- BaseProvider's request method (base.py lines 42-71): POST the payload;
on a successful response increment self.config.used_quota by one and return
True; on any exception return False with no state change. postOk is the
oracle for the HTTP outcome of this call. -/
def GenericProvider.make_request (p : GenericProvider) (postOk : Bool) :
    GenericProvider × Bool :=
  if postOk then
    ({ p with config := { p.config with used_quota := p.config.used_quota + 1 } }, true)
  else (p, false)

/-- GenericProvider.send_webhook (generic.py): delegates to the request
method of base.py. -/
def GenericProvider.send_webhook (p : GenericProvider) (postOk : Bool) :
    GenericProvider × Bool := p.make_request postOk

/-- The result dictionary returned by the balancers' send methods
(load_balancer.py): keys success, provider, error. -/
structure SendResult where
  success : Bool
  provider : Option String
  error : Option String
deriving DecidableEq, Inhabited

/-- The result dictionary built when no provider is available or none is
configured (load_balancer.py lines 100-104, 154-158, 174-178, 212-216,
232-236): success False, provider None, a fixed error message. -/
def noProviderResult : SendResult :=
  { success := false, provider := none, error := some "没有可用的云平台提供者" }

/-- The while loop of get_next_provider (load_balancer.py lines 72-82), also
inlined in the send methods of the other two balancer classes: starting at
idx, repeatedly advance the cursor modulo n (on every visited position) and
return the first position whose provider is available, for at most fuel
visited positions. Returns the selected position (None if none was available
within fuel attempts) together with the final cursor value. avail i is
providers[i].is_available. -/
def scanLoop (avail : Nat → Bool) (n : Nat) : Nat → Nat → Option Nat × Nat
  | idx, 0 => (none, idx)
  | idx, fuel + 1 =>
      let idx2 := (idx + 1) % n
      if avail idx then (some idx, idx2) else scanLoop avail n idx2 fuel

/-- RoundRobinLoadBalancer (load_balancer.py lines 46-138): the ordered
provider list and the rotation cursor current_index (0 at construction). -/
structure RoundRobinLoadBalancer where
  providers : List Provider
  current_index : Nat
deriving DecidableEq, Inhabited

/-- RoundRobinLoadBalancer.get_next_provider (load_balancer.py lines 61-85):
None for an empty provider list; otherwise run the scan loop with
max_attempts = len(providers), returning the selected provider (the list
entry at the selected position) and the balancer with the cursor moved to
where the scan left it. -/
def RoundRobinLoadBalancer.get_next_provider (lb : RoundRobinLoadBalancer) :
    Option Provider × RoundRobinLoadBalancer :=
  if lb.providers.isEmpty then (none, lb)
  else
    let r := scanLoop (fun i => (lb.providers.getD i default).is_available)
      lb.providers.length lb.current_index lb.providers.length
    (r.1.map (fun i => lb.providers.getD i default),
     { lb with current_index := r.2 })

/-- RoundRobinLoadBalancer.send (load_balancer.py lines 87-112): pick the
next provider; if None return the no-provider result; otherwise call its
send_webhook and report success, the provider name, and the error message
"发送失败" on failure. deliver is the transport oracle. -/
def RoundRobinLoadBalancer.send (lb : RoundRobinLoadBalancer)
    (payload : Payload) (deliver : Payload → Provider → Bool) :
    SendResult × RoundRobinLoadBalancer :=
  match lb.get_next_provider with
  | (none, lb2) => (noProviderResult, lb2)
  | (some p, lb2) =>
      let success := p.send_webhook payload deliver
      ({ success := success, provider := some p.name,
         error := if success then none else some "发送失败" }, lb2)

/-- The result dictionary built by the send methods once a provider was
selected and its send_webhook called (load_balancer.py lines 106-112,
166-171, 224-229). -/
def attemptResult (payload : Payload) (deliver : Payload → Provider → Bool)
    (p : Provider) : SendResult :=
  { success := p.send_webhook payload deliver, provider := some p.name,
    error := if p.send_webhook payload deliver then none else some "发送失败" }

/-- A value stored in a provider-status dictionary (string or boolean). -/
inductive SVal where
  | str : String → SVal
  | bool : Bool → SVal
deriving DecidableEq

/-- The status dictionary built by the get_status methods: the providers key
(one key-value dictionary per provider, kept as an association list to record
exactly which keys the code emits), total and available. -/
structure LBStatus where
  providers : List (List (String × SVal))
  total : Nat
  available : Nat
deriving DecidableEq

/-- The provider_status dictionary built for one provider inside get_status
(load_balancer.py lines 128-133): exactly the keys name, enabled, available,
endpoint, in that insertion order. -/
def providerStatusEntry (p : Provider) : List (String × SVal) :=
  [("name", SVal.str p.name), ("enabled", SVal.bool p.config.enabled),
   ("available", SVal.bool p.is_available), ("endpoint", SVal.str p.config.endpoint)]

/-- RoundRobinLoadBalancer.get_status (load_balancer.py lines 114-138):
start from providers = [], total = len(providers), available = 0, then for
each provider append its status entry and increment available when it is
available. -/
def RoundRobinLoadBalancer.get_status (lb : RoundRobinLoadBalancer) : LBStatus :=
  lb.providers.foldl
    (fun st p =>
      { st with
        providers := st.providers ++ [providerStatusEntry p],
        available := if p.is_available then st.available + 1 else st.available })
    { providers := [], total := lb.providers.length, available := 0 }

/-- WeightedRoundRobinLoadBalancer (load_balancer.py lines 141-196): weighted
rotation is unimplemented; it keeps the same provider list and cursor. -/
structure WeightedRoundRobinLoadBalancer where
  providers : List Provider
  current_index : Nat
deriving DecidableEq, Inhabited

/-- The while loop inlined in WeightedRoundRobinLoadBalancer.send
(load_balancer.py lines 160-172): at each visited position advance the cursor
modulo n; if the provider there is available, call its send_webhook at once
and return the result dictionary; after fuel unavailable positions fall
through to the no-provider result. Returns the result and the final cursor. -/
def wrrSendLoop (payload : Payload) (deliver : Payload → Provider → Bool)
    (providers : List Provider) : Nat → Nat → SendResult × Nat
  | idx, 0 => (noProviderResult, idx)
  | idx, fuel + 1 =>
      let provider := providers.getD idx default
      let idx2 := (idx + 1) % providers.length
      if provider.is_available then
        let success := provider.send_webhook payload deliver
        ({ success := success, provider := some provider.name,
           error := if success then none else some "发送失败" }, idx2)
      else wrrSendLoop payload deliver providers idx2 fuel

/-- WeightedRoundRobinLoadBalancer.send (load_balancer.py lines 150-178):
the no-provider result for an empty list, otherwise the inlined scan-and-send
loop with max_attempts = len(providers). -/
def WeightedRoundRobinLoadBalancer.send (lb : WeightedRoundRobinLoadBalancer)
    (payload : Payload) (deliver : Payload → Provider → Bool) :
    SendResult × WeightedRoundRobinLoadBalancer :=
  if lb.providers.isEmpty then (noProviderResult, lb)
  else
    let r := wrrSendLoop payload deliver lb.providers lb.current_index
      lb.providers.length
    (r.1, { lb with current_index := r.2 })

/-- WeightedRoundRobinLoadBalancer.get_status (load_balancer.py lines
180-196): same loop as the round-robin get_status. -/
def WeightedRoundRobinLoadBalancer.get_status
    (lb : WeightedRoundRobinLoadBalancer) : LBStatus :=
  lb.providers.foldl
    (fun st p =>
      { st with
        providers := st.providers ++ [providerStatusEntry p],
        available := if p.is_available then st.available + 1 else st.available })
    { providers := [], total := lb.providers.length, available := 0 }

/-- LeastConnectionsLoadBalancer (load_balancer.py lines 199-254):
least-connections is unimplemented; same provider list and cursor. -/
structure LeastConnectionsLoadBalancer where
  providers : List Provider
  current_index : Nat
deriving DecidableEq, Inhabited

/-- The while loop inlined in LeastConnectionsLoadBalancer.send
(load_balancer.py lines 218-230): identical in shape to the weighted loop. -/
def lcSendLoop (payload : Payload) (deliver : Payload → Provider → Bool)
    (providers : List Provider) : Nat → Nat → SendResult × Nat
  | idx, 0 => (noProviderResult, idx)
  | idx, fuel + 1 =>
      let provider := providers.getD idx default
      let idx2 := (idx + 1) % providers.length
      if provider.is_available then
        let success := provider.send_webhook payload deliver
        ({ success := success, provider := some provider.name,
           error := if success then none else some "发送失败" }, idx2)
      else lcSendLoop payload deliver providers idx2 fuel

/-- LeastConnectionsLoadBalancer.send (load_balancer.py lines 208-236). -/
def LeastConnectionsLoadBalancer.send (lb : LeastConnectionsLoadBalancer)
    (payload : Payload) (deliver : Payload → Provider → Bool) :
    SendResult × LeastConnectionsLoadBalancer :=
  if lb.providers.isEmpty then (noProviderResult, lb)
  else
    let r := lcSendLoop payload deliver lb.providers lb.current_index
      lb.providers.length
    (r.1, { lb with current_index := r.2 })

/-- LeastConnectionsLoadBalancer.get_status (load_balancer.py lines
238-254): same loop as the round-robin get_status. -/
def LeastConnectionsLoadBalancer.get_status
    (lb : LeastConnectionsLoadBalancer) : LBStatus :=
  lb.providers.foldl
    (fun st p =>
      { st with
        providers := st.providers ++ [providerStatusEntry p],
        available := if p.is_available then st.available + 1 else st.available })
    { providers := [], total := lb.providers.length, available := 0 }

/-- The round-robin balancer over the quota-tracking provider variant of
base.py/generic.py: the loop of load_balancer.py applied, duck-typed, to
GenericProvider objects. The selection is recorded by list position, since in
the source the returned provider object is an aliased entry of the list that
send_webhook mutates in place. -/
structure QuotaRoundRobin where
  providers : List GenericProvider
  current_index : Nat
deriving DecidableEq, Inhabited

/-- get_next_provider of load_balancer.py (lines 61-85) over the quota
provider variant: the position of the selected provider and the balancer with
the moved cursor. -/
def QuotaRoundRobin.get_next_provider (lb : QuotaRoundRobin) :
    Option Nat × QuotaRoundRobin :=
  if lb.providers.isEmpty then (none, lb)
  else
    let r := scanLoop (fun i => (lb.providers.getD i default).is_available)
      lb.providers.length lb.current_index lb.providers.length
    (r.1, { lb with current_index := r.2 })

/-- send of load_balancer.py (lines 87-112) over the quota provider variant:
select, then call the selected provider's send_webhook; the provider object
mutated by make_request is written back at its list position (in the source
the list entry is aliased and mutated in place). postOk is the HTTP oracle
for this call. -/
def QuotaRoundRobin.send (lb : QuotaRoundRobin) (postOk : Bool) :
    SendResult × QuotaRoundRobin :=
  match lb.get_next_provider with
  | (none, lb2) => (noProviderResult, lb2)
  | (some j, lb2) =>
      let p := lb2.providers.getD j default
      let pr := p.send_webhook postOk
      ({ success := pr.2, provider := some p.name,
         error := if pr.2 then none else some "发送失败" },
       { lb2 with providers := lb2.providers.set j pr.1 })

/-- A balancer as returned by the factory: one of the three classes. -/
inductive Balancer where
  | round_robin : RoundRobinLoadBalancer → Balancer
  | weighted_round_robin : WeightedRoundRobinLoadBalancer → Balancer
  | least_connections : LeastConnectionsLoadBalancer → Balancer
deriving DecidableEq

/-- Python str.lower as used on the ASCII strategy identifiers: lowercase
every character. -/
def lowerStr (s : String) : String := ⟨s.data.map Char.toLower⟩

/-- create_load_balancer (load_balancer.py lines 257-281): look the
lowercased strategy name up in the strategy map; an unknown name raises
ValueError (modelled as the error branch) with the message built from the
original strategy string; a known name constructs that balancer class over
the provider list (cursor 0). -/
def create_load_balancer (strategy : String) (providers : List Provider) :
    Except String Balancer :=
  let s := lowerStr strategy
  if s = "round_robin" then
    Except.ok (Balancer.round_robin ⟨providers, 0⟩)
  else if s = "weighted_round_robin" then
    Except.ok (Balancer.weighted_round_robin ⟨providers, 0⟩)
  else if s = "least_connections" then
    Except.ok (Balancer.least_connections ⟨providers, 0⟩)
  else
    Except.error ("无效的负载均衡策略: " ++ strategy)

/-- The balancer-initialization part of startup_event (main.py lines 97-110):
build a Provider for each enabled config; if none, the global load_balancer
stays None (local-only mode); otherwise call create_load_balancer and, on
ValueError, catch it and fall back to load_balancer = None — the service
keeps starting either way (this function is total: startup never aborts).
Returns the final value of the global load_balancer. -/
def startup_event (configs : List ProviderConfig) (strategy : String) :
    Option Balancer :=
  let providers := (configs.filter (fun c => c.enabled)).map Provider.mk
  if providers.isEmpty then none
  else
    match create_load_balancer strategy providers with
    | Except.ok b => some b
    | Except.error _ => none

/-- Iterated send calls against one round-robin balancer: call t uses payload
payloads t and transport oracle deliver t. Returns the result trace and the
final balancer state. -/
def runSends (lb : RoundRobinLoadBalancer) (payloads : Nat → Payload)
    (deliver : Nat → Payload → Provider → Bool) :
    Nat → List SendResult × RoundRobinLoadBalancer
  | 0 => ([], lb)
  | n + 1 =>
      let r := lb.send (payloads 0) (deliver 0)
      let rest := runSends r.2 (fun t => payloads (t + 1))
        (fun t => deliver (t + 1)) n
      (r.1 :: rest.1, rest.2)

/-- Iterated send calls against one quota-mode balancer: call t's HTTP
outcome is posts t. Returns the final balancer state. -/
def qrun (lb : QuotaRoundRobin) (posts : Nat → Bool) : Nat → QuotaRoundRobin
  | 0 => lb
  | n + 1 => qrun (lb.send (posts 0)).2 (fun t => posts (t + 1)) n

/-- Concrete enabled provider configs for witnesses. -/
def cfgA : ProviderConfig := ⟨"pA", true, "http://a.example/webhook"⟩

def cfgB : ProviderConfig := ⟨"pB", true, "http://b.example/webhook"⟩

def cfgOff : ProviderConfig := ⟨"pOff", false, "http://off.example/webhook"⟩

def pA : Provider := ⟨cfgA⟩

def pB : Provider := ⟨cfgB⟩

def pOff : Provider := ⟨cfgOff⟩

/-- Concrete quota-mode provider with one unit of free quota. -/
def qp1 : GenericProvider := ⟨⟨"q1", true, "http://q1.example/webhook", 0, 1⟩⟩

def payW : Payload := ⟨[("status", "firing")]⟩

/-! Helper lemmas about lists and the scan loop. -/

theorem set_getD_self {α : Type} : ∀ (l : List α) (j : Nat) (d : α),
    l.set j (l.getD j d) = l := by
  intro l
  induction l with
  | nil => intro j d; rfl
  | cons a t ih =>
      intro j d
      cases j with
      | zero => rfl
      | succ j =>
          show a :: t.set j (t.getD j d) = a :: t
          rw [ih j d]

theorem getD_set_self {α : Type} : ∀ (l : List α) (j : Nat) (v d : α),
    j < l.length → (l.set j v).getD j d = v := by
  intro l
  induction l with
  | nil => intro j v d h; exact absurd h (by simp)
  | cons a t ih =>
      intro j v d h
      cases j with
      | zero => rfl
      | succ j =>
          simp only [List.set, List.getD_cons_succ]
          exact ih j v d (by simpa using h)

theorem getD_mem {α : Type} (l : List α) (i : Nat) (d : α) (h : i < l.length) :
    l.getD i d ∈ l := by
  rw [List.getD_eq_getElem l d h]
  exact List.getElem_mem h

theorem drop_getD_cons {α : Type} (d : α) : ∀ (l : List α) (i : Nat),
    i < l.length → l.drop i = l.getD i d :: l.drop (i + 1) := by
  intro l
  induction l with
  | nil => intro i h; exact absurd h (by simp)
  | cons a t ih =>
      intro i h
      cases i with
      | zero => rfl
      | succ i =>
          simp only [List.drop_succ_cons, List.getD_cons_succ]
          exact ih i (by simpa using h)

theorem scanLoop_succ (avail : Nat → Bool) (n idx fuel : Nat) :
    scanLoop avail n idx (fuel + 1) =
      if avail idx then (some idx, (idx + 1) % n)
      else scanLoop avail n ((idx + 1) % n) fuel := by
  simp [scanLoop]

theorem scanLoop_head_avail (avail : Nat → Bool) (n idx fuel : Nat)
    (h : avail idx = true) :
    scanLoop avail n idx (fuel + 1) = (some idx, (idx + 1) % n) := by
  simp [scanLoop, h]

theorem scanLoop_some_spec (avail : Nat → Bool) (n : Nat) :
    ∀ (fuel idx j c : Nat), scanLoop avail n idx fuel = (some j, c) →
      avail j = true ∧ c = (j + 1) % n := by
  intro fuel
  induction fuel with
  | zero => intro idx j c h; simp [scanLoop] at h
  | succ fuel ih =>
      intro idx j c h
      rw [scanLoop_succ] at h
      by_cases ha : avail idx = true
      · rw [if_pos ha] at h
        obtain ⟨h1, h2⟩ := Prod.mk.injEq .. ▸ h
        injection h1 with h1
        exact ⟨h1 ▸ ha, h1 ▸ h2.symm ▸ rfl⟩
      · rw [if_neg ha] at h
        exact ih _ j c h

theorem scanLoop_all_false (avail : Nat → Bool) (n : Nat)
    (hall : ∀ i, avail i = false) :
    ∀ (fuel idx : Nat), idx < n →
      scanLoop avail n idx fuel = (none, (idx + fuel) % n) := by
  intro fuel
  induction fuel with
  | zero =>
      intro idx h
      simp [scanLoop, Nat.mod_eq_of_lt h]
  | succ fuel ih =>
      intro idx h
      have hn : 0 < n := Nat.lt_of_le_of_lt (Nat.zero_le _) h
      rw [scanLoop_succ, if_neg (by simp [hall idx])]
      rw [ih ((idx + 1) % n) (Nat.mod_lt _ hn)]
      rw [Nat.mod_add_mod]
      have : idx + 1 + fuel = idx + (fuel + 1) := by omega
      rw [this]

theorem scanLoop_cursor_lt (avail : Nat → Bool) (n : Nat) (hn : 0 < n) :
    ∀ (fuel idx : Nat), idx < n → (scanLoop avail n idx fuel).2 < n := by
  intro fuel
  induction fuel with
  | zero => intro idx h; simpa [scanLoop] using h
  | succ fuel ih =>
      intro idx h
      rw [scanLoop_succ]
      by_cases ha : avail idx = true
      · simp [ha, Nat.mod_lt _ hn]
      · simp only [ha, if_false, Bool.false_eq_true]
        exact ih ((idx + 1) % n) (Nat.mod_lt _ hn)

theorem scanLoop_first (avail : Nat → Bool) (n : Nat) :
    ∀ (fuel idx j c : Nat), idx < n →
      scanLoop avail n idx fuel = (some j, c) →
      ∃ m, m < fuel ∧ j = (idx + m) % n ∧
        ∀ m2, m2 < m → avail ((idx + m2) % n) = false := by
  intro fuel
  induction fuel with
  | zero => intro idx j c _ h; simp [scanLoop] at h
  | succ fuel ih =>
      intro idx j c hidx h
      have hn : 0 < n := Nat.lt_of_le_of_lt (Nat.zero_le _) hidx
      rw [scanLoop_succ] at h
      by_cases ha : avail idx = true
      · rw [if_pos ha] at h
        obtain ⟨h1, _⟩ := Prod.mk.injEq .. ▸ h
        injection h1 with h1
        refine ⟨0, Nat.succ_pos _, ?_, fun m2 hm2 => absurd hm2 (Nat.not_lt_zero m2)⟩
        rw [← h1, Nat.add_zero, Nat.mod_eq_of_lt hidx]
      · rw [if_neg ha] at h
        obtain ⟨m, hm, hj, hprev⟩ := ih ((idx + 1) % n) j c (Nat.mod_lt _ hn) h
        refine ⟨m + 1, by omega, ?_, ?_⟩
        · rw [hj, Nat.mod_add_mod]
          have : idx + 1 + m = idx + (m + 1) := by omega
          rw [this]
        · intro m2 hm2
          cases m2 with
          | zero => simpa [Nat.mod_eq_of_lt hidx] using ha
          | succ m2 =>
              have := hprev m2 (by omega)
              rw [Nat.mod_add_mod] at this
              have heq : idx + 1 + m2 = idx + (m2 + 1) := by omega
              rw [heq] at this
              exact this

/-! Mid-level lemmas connecting the balancer operations to the scan loop. -/

theorem rr_gnp_providers (lb : RoundRobinLoadBalancer) :
    lb.get_next_provider.2.providers = lb.providers := by
  unfold RoundRobinLoadBalancer.get_next_provider
  by_cases h : lb.providers.isEmpty <;> simp [h]

theorem rr_send_of_scan_none (ps : List Provider) (i c : Nat)
    (payload : Payload) (deliver : Payload → Provider → Bool)
    (hne : ps ≠ [])
    (hscan : scanLoop (fun k => (ps.getD k default).is_available)
      ps.length i ps.length = (none, c)) :
    (RoundRobinLoadBalancer.mk ps i).send payload deliver =
      (noProviderResult, ⟨ps, c⟩) := by
  unfold RoundRobinLoadBalancer.send RoundRobinLoadBalancer.get_next_provider
  simp only [List.isEmpty_iff, hne, if_false, hscan]
  rfl

theorem rr_send_of_scan_some (ps : List Provider) (i j c : Nat)
    (payload : Payload) (deliver : Payload → Provider → Bool)
    (hne : ps ≠ [])
    (hscan : scanLoop (fun k => (ps.getD k default).is_available)
      ps.length i ps.length = (some j, c)) :
    (RoundRobinLoadBalancer.mk ps i).send payload deliver =
      (attemptResult payload deliver (ps.getD j default), ⟨ps, c⟩) := by
  unfold RoundRobinLoadBalancer.send RoundRobinLoadBalancer.get_next_provider
  simp only [List.isEmpty_iff, hne, if_false, hscan]
  rfl

theorem wrrSendLoop_eq_scan (payload : Payload)
    (deliver : Payload → Provider → Bool) (ps : List Provider) :
    ∀ (fuel idx : Nat),
      wrrSendLoop payload deliver ps idx fuel =
        (((scanLoop (fun k => (ps.getD k default).is_available)
            ps.length idx fuel).1).elim noProviderResult
            (fun j => attemptResult payload deliver (ps.getD j default)),
         (scanLoop (fun k => (ps.getD k default).is_available)
            ps.length idx fuel).2) := by
  intro fuel
  induction fuel with
  | zero => intro idx; rfl
  | succ fuel ih =>
      intro idx
      rw [scanLoop_succ]
      by_cases h : (ps.getD idx default).is_available = true
      · rw [if_pos h]
        simp only [wrrSendLoop, h, if_true]
        rfl
      · rw [if_neg h]
        simp only [wrrSendLoop, h, Bool.false_eq_true, if_false]
        exact ih ((idx + 1) % ps.length)

theorem lcSendLoop_eq_wrr (payload : Payload)
    (deliver : Payload → Provider → Bool) (ps : List Provider) :
    ∀ (fuel idx : Nat),
      lcSendLoop payload deliver ps idx fuel =
        wrrSendLoop payload deliver ps idx fuel := by
  intro fuel
  induction fuel with
  | zero => intro idx; rfl
  | succ fuel ih =>
      intro idx
      by_cases h : (ps.getD idx default).is_available = true
      · simp only [lcSendLoop, wrrSendLoop, h, if_true]
      · simp only [lcSendLoop, wrrSendLoop, h, Bool.false_eq_true, if_false]
        exact ih ((idx + 1) % ps.length)

theorem qgnp_providers (lb : QuotaRoundRobin) :
    lb.get_next_provider.2.providers = lb.providers := by
  unfold QuotaRoundRobin.get_next_provider
  by_cases h : lb.providers.isEmpty <;> simp [h]

theorem gp_default_not_avail : GenericProvider.is_available default = false := rfl

theorem gp_avail_quota (p : GenericProvider) (h : p.is_available = true) :
    p.config.used_quota < p.config.free_quota := by
  unfold GenericProvider.is_available at h
  by_cases he : p.config.enabled
  · simpa [he] using h
  · simp [he] at h

theorem qgnp_some_spec (qlb : QuotaRoundRobin) (j : Nat)
    (lb2 : QuotaRoundRobin) (hg : qlb.get_next_provider = (some j, lb2)) :
    (qlb.providers.getD j default).is_available = true ∧
      j < qlb.providers.length ∧
      lb2.providers = qlb.providers ∧
      lb2.current_index = (j + 1) % qlb.providers.length := by
  unfold QuotaRoundRobin.get_next_provider at hg
  by_cases h : qlb.providers.isEmpty
  · rw [if_pos h] at hg
    exact absurd (congrArg Prod.fst hg) (by simp)
  · rw [if_neg h] at hg
    have h1 : (scanLoop (fun i => (qlb.providers.getD i default).is_available)
        qlb.providers.length qlb.current_index qlb.providers.length).1 = some j :=
      congrArg Prod.fst hg
    have h2 : ({ qlb with current_index :=
        (scanLoop (fun i => (qlb.providers.getD i default).is_available)
          qlb.providers.length qlb.current_index qlb.providers.length).2 } :
        QuotaRoundRobin) = lb2 :=
      congrArg Prod.snd hg
    have hscan : scanLoop (fun i => (qlb.providers.getD i default).is_available)
        qlb.providers.length qlb.current_index qlb.providers.length =
        (some j, (scanLoop (fun i => (qlb.providers.getD i default).is_available)
          qlb.providers.length qlb.current_index qlb.providers.length).2) := by
      rw [← h1]
    obtain ⟨hav, hc⟩ := scanLoop_some_spec _ _ _ _ _ _ hscan
    have hj : j < qlb.providers.length := by
      by_contra hge
      rw [List.getD_eq_default _ _ (Nat.le_of_not_lt hge)] at hav
      exact absurd hav (by simp [gp_default_not_avail])
    refine ⟨hav, hj, ?_, ?_⟩
    · rw [← h2]
    · rw [← h2]
      simpa using hc

theorem qgnp_none_spec (qlb : QuotaRoundRobin) (lb2 : QuotaRoundRobin)
    (hg : qlb.get_next_provider = (none, lb2)) :
    lb2.providers = qlb.providers := by
  have := qgnp_providers qlb
  rw [hg] at this
  exact this

theorem qsend_none (qlb : QuotaRoundRobin) (ok : Bool)
    (lb2 : QuotaRoundRobin) (hg : qlb.get_next_provider = (none, lb2)) :
    qlb.send ok = (noProviderResult, lb2) := by
  unfold QuotaRoundRobin.send
  rw [hg]

theorem qsend_some (qlb : QuotaRoundRobin) (ok : Bool) (j : Nat)
    (lb2 : QuotaRoundRobin) (hg : qlb.get_next_provider = (some j, lb2)) :
    qlb.send ok =
      (({ success := ((qlb.providers.getD j default).send_webhook ok).2,
          provider := some (qlb.providers.getD j default).name,
          error := if ((qlb.providers.getD j default).send_webhook ok).2
            then none else some "发送失败" } : SendResult),
       { lb2 with providers :=
          qlb.providers.set j ((qlb.providers.getD j default).send_webhook ok).1 }) := by
  have hps : lb2.providers = qlb.providers := by
    have := qgnp_providers qlb
    rw [hg] at this
    exact this
  unfold QuotaRoundRobin.send
  rw [hg]
  simp only [hps]

theorem rr_send_snd (lb : RoundRobinLoadBalancer) (payload : Payload)
    (deliver : Payload → Provider → Bool) :
    (lb.send payload deliver).2 = lb.get_next_provider.2 := by
  unfold RoundRobinLoadBalancer.send
  rcases h : lb.get_next_provider with ⟨o, lb2⟩
  cases o <;> rfl

theorem scanLoop_head_avail_full (avail : Nat → Bool) (n idx : Nat)
    (hn : 0 < n) (h : avail idx = true) :
    scanLoop avail n idx n = (some idx, (idx + 1) % n) := by
  obtain ⟨m, hm⟩ := Nat.exists_eq_succ_of_ne_zero (Nat.pos_iff_ne_zero.mp hn)
  rw [hm]
  exact scanLoop_head_avail _ _ _ _ h

theorem rr_send_parts (ps : List Provider) (i : Nat) (payload : Payload)
    (deliver : Payload → Provider → Bool) (hne : ps ≠ []) :
    (RoundRobinLoadBalancer.mk ps i).send payload deliver =
      (((scanLoop (fun k => (ps.getD k default).is_available)
          ps.length i ps.length).1).elim noProviderResult
          (fun j => attemptResult payload deliver (ps.getD j default)),
       ⟨ps, (scanLoop (fun k => (ps.getD k default).is_available)
          ps.length i ps.length).2⟩) := by
  rcases hscan : scanLoop (fun k => (ps.getD k default).is_available)
      ps.length i ps.length with ⟨o, c⟩
  cases o with
  | none => rw [rr_send_of_scan_none ps i c payload deliver hne hscan]; rfl
  | some j => rw [rr_send_of_scan_some ps i j c payload deliver hne hscan]; rfl

theorem wrr_send_parts (ps : List Provider) (i : Nat) (payload : Payload)
    (deliver : Payload → Provider → Bool) (hne : ps ≠ []) :
    (WeightedRoundRobinLoadBalancer.mk ps i).send payload deliver =
      (((scanLoop (fun k => (ps.getD k default).is_available)
          ps.length i ps.length).1).elim noProviderResult
          (fun j => attemptResult payload deliver (ps.getD j default)),
       ⟨ps, (scanLoop (fun k => (ps.getD k default).is_available)
          ps.length i ps.length).2⟩) := by
  unfold WeightedRoundRobinLoadBalancer.send
  simp only [List.isEmpty_iff, hne, if_false, wrrSendLoop_eq_scan]

theorem lc_send_parts (ps : List Provider) (i : Nat) (payload : Payload)
    (deliver : Payload → Provider → Bool) (hne : ps ≠ []) :
    (LeastConnectionsLoadBalancer.mk ps i).send payload deliver =
      (((scanLoop (fun k => (ps.getD k default).is_available)
          ps.length i ps.length).1).elim noProviderResult
          (fun j => attemptResult payload deliver (ps.getD j default)),
       ⟨ps, (scanLoop (fun k => (ps.getD k default).is_available)
          ps.length i ps.length).2⟩) := by
  unfold LeastConnectionsLoadBalancer.send
  simp only [List.isEmpty_iff, hne, if_false, lcSendLoop_eq_wrr,
    wrrSendLoop_eq_scan]

theorem rr_gnp_cursor (ps : List Provider) (i : Nat) (hne : ps ≠ []) :
    (RoundRobinLoadBalancer.mk ps i).get_next_provider.2.current_index =
      (scanLoop (fun k => (ps.getD k default).is_available)
        ps.length i ps.length).2 := by
  unfold RoundRobinLoadBalancer.get_next_provider
  simp only [List.isEmpty_iff, hne, if_false]

theorem status_foldl (ps : List Provider) :
    ∀ (acc : List (List (String × SVal))) (tot k : Nat),
      ps.foldl (fun (st : LBStatus) (p : Provider) =>
        { st with
          providers := st.providers ++ [providerStatusEntry p],
          available := if p.is_available then st.available + 1 else st.available })
        { providers := acc, total := tot, available := k } =
      { providers := acc ++ ps.map providerStatusEntry, total := tot,
        available := k + ps.countP (fun p => p.is_available) } := by
  induction ps with
  | nil => intro acc tot k; simp
  | cons p t ih =>
      intro acc tot k
      simp only [List.foldl_cons]
      rw [ih]
      simp only [LBStatus.mk.injEq, List.map_cons, List.countP_cons]
      refine ⟨by simp, trivial, ?_⟩
      by_cases hp : p.is_available = true
      all_goals simp [hp]
      all_goals omega

theorem qgnp_some_scan (qlb : QuotaRoundRobin) (j : Nat)
    (lb2 : QuotaRoundRobin) (hg : qlb.get_next_provider = (some j, lb2)) :
    ∃ c, scanLoop (fun i => (qlb.providers.getD i default).is_available)
      qlb.providers.length qlb.current_index qlb.providers.length =
      (some j, c) := by
  unfold QuotaRoundRobin.get_next_provider at hg
  by_cases h : qlb.providers.isEmpty
  · rw [if_pos h] at hg
    exact absurd (congrArg Prod.fst hg) (by simp)
  · rw [if_neg h] at hg
    have h1 : (scanLoop (fun i => (qlb.providers.getD i default).is_available)
        qlb.providers.length qlb.current_index qlb.providers.length).1 = some j :=
      congrArg Prod.fst hg
    exact ⟨_, by rw [← h1]⟩

theorem qsend_quota_le (qlb : QuotaRoundRobin) (ok : Bool)
    (hq : ∀ p ∈ qlb.providers, p.config.used_quota ≤ p.config.free_quota) :
    ∀ p2 ∈ (qlb.send ok).2.providers,
      p2.config.used_quota ≤ p2.config.free_quota := by
  rcases hg : qlb.get_next_provider with ⟨o, lb2⟩
  cases o with
  | none =>
      rw [qsend_none qlb ok lb2 hg]
      intro p2 hp2
      exact hq p2 (by rwa [qgnp_none_spec qlb lb2 hg] at hp2)
  | some j =>
      rw [qsend_some qlb ok j lb2 hg]
      intro p2 hp2
      simp only at hp2
      obtain ⟨hav, hj, _, _⟩ := qgnp_some_spec qlb j lb2 hg
      have hlt := gp_avail_quota _ hav
      have hmem := getD_mem qlb.providers j default hj
      rcases List.mem_or_eq_of_mem_set hp2 with h | h
      · exact hq p2 h
      · cases ok with
        | true =>
            subst h
            simp only [GenericProvider.send_webhook, GenericProvider.make_request,
              if_true]
            omega
        | false =>
            subst h
            simpa [GenericProvider.send_webhook, GenericProvider.make_request]
              using hq _ hmem

theorem qrun_quota_le (n : Nat) : ∀ (qlb : QuotaRoundRobin) (posts : Nat → Bool),
    (∀ p ∈ qlb.providers, p.config.used_quota ≤ p.config.free_quota) →
    ∀ p2 ∈ (qrun qlb posts n).providers,
      p2.config.used_quota ≤ p2.config.free_quota := by
  induction n with
  | zero => intro qlb posts hq; simpa [qrun] using hq
  | succ n ih =>
      intro qlb posts hq
      simp only [qrun]
      exact ih _ _ (qsend_quota_le qlb (posts 0) hq)

theorem runSends_all_avail (ps : List Provider)
    (hav : ∀ p ∈ ps, p.is_available = true) :
    ∀ (k i : Nat) (payloads : Nat → Payload)
      (deliver : Nat → Payload → Provider → Bool),
      i < ps.length → i + k ≤ ps.length →
      (runSends ⟨ps, i⟩ payloads deliver k).1.map SendResult.provider =
        ((ps.drop i).take k).map (fun p => some p.name) ∧
      (runSends ⟨ps, i⟩ payloads deliver k).2 =
        ⟨ps, (i + k) % ps.length⟩ := by
  intro k
  induction k with
  | zero =>
      intro i payloads deliver hi _
      exact ⟨by simp [runSends], by simp [runSends, Nat.mod_eq_of_lt hi]⟩
  | succ k ih =>
      intro i payloads deliver hi hik
      have hn : 0 < ps.length := Nat.lt_of_le_of_lt (Nat.zero_le _) hi
      have hne : ps ≠ [] := by
        intro h
        rw [h] at hi
        simp at hi
      have havi : (ps.getD i default).is_available = true :=
        hav _ (getD_mem ps i default hi)
      have hscan : scanLoop (fun j => (ps.getD j default).is_available)
          ps.length i ps.length = (some i, (i + 1) % ps.length) :=
        scanLoop_head_avail_full _ _ _ hn havi
      have hsend := rr_send_of_scan_some ps i i ((i + 1) % ps.length)
        (payloads 0) (deliver 0) hne hscan
      simp only [runSends]
      rw [hsend]
      by_cases hcase : i + 1 < ps.length
      · have hmod : (i + 1) % ps.length = i + 1 := Nat.mod_eq_of_lt hcase
        rw [hmod]
        obtain ⟨ht, hs⟩ := ih (i + 1) (fun t => payloads (t + 1))
          (fun t => deliver (t + 1)) hcase (by omega)
        constructor
        · rw [List.map_cons, ht, drop_getD_cons default ps i hi,
            List.take_succ_cons, List.map_cons]
          rfl
        · rw [hs]
          have : i + 1 + k = i + (k + 1) := by omega
          rw [this]
      · have hk0 : k = 0 := by omega
        subst hk0
        constructor
        · rw [drop_getD_cons default ps i hi, List.take_succ_cons]
          simp [runSends, attemptResult]
        · simp [runSends]

theorem clb_of_toLower_rr (s : String) (ps : List Provider)
    (h : lowerStr s = "round_robin") :
    create_load_balancer s ps = Except.ok (Balancer.round_robin ⟨ps, 0⟩) := by
  simp only [create_load_balancer]
  rw [if_pos h]

theorem clb_of_toLower_wrr (s : String) (ps : List Provider)
    (h : lowerStr s = "weighted_round_robin") :
    create_load_balancer s ps =
      Except.ok (Balancer.weighted_round_robin ⟨ps, 0⟩) := by
  simp only [create_load_balancer]
  rw [if_neg (by rw [h]; decide), if_pos h]

theorem clb_of_toLower_lc (s : String) (ps : List Provider)
    (h : lowerStr s = "least_connections") :
    create_load_balancer s ps =
      Except.ok (Balancer.least_connections ⟨ps, 0⟩) := by
  simp only [create_load_balancer]
  rw [if_neg (by rw [h]; decide), if_neg (by rw [h]; decide), if_pos h]

theorem clb_invalid (s : String) (h1 : lowerStr s ≠ "round_robin")
    (h2 : lowerStr s ≠ "weighted_round_robin")
    (h3 : lowerStr s ≠ "least_connections") (ps : List Provider) :
    create_load_balancer s ps =
      Except.error ("无效的负载均衡策略: " ++ s) := by
  simp only [create_load_balancer]
  rw [if_neg h1, if_neg h2, if_neg h3]

theorem all_false_avail (ps : List Provider)
    (hall : ∀ p ∈ ps, p.is_available = false) :
    ∀ k, (ps.getD k default).is_available = false := by
  intro k
  by_cases hk : k < ps.length
  · exact hall _ (getD_mem ps k default hk)
  · rw [List.getD_eq_default _ _ (Nat.le_of_not_lt hk)]
    rfl

/-! The claims. -/

/-- C1: for a round-robin dispatcher over N >= 1 enabled, always-available
endpoints (cursor starting at 0), the first N consecutive send calls select
the endpoints exactly once each, in the order they were configured, starting
with endpoint 0 — the trace of selected provider names is exactly the
configured name list — and the cursor is back at 0 afterwards. This holds for
every payload sequence and every transport outcome, since selection does not
depend on delivery success. -/
theorem round_robin_rotation_fairness (ps : List Provider)
    (hne : ps ≠ []) (hav : ∀ p ∈ ps, p.is_available = true)
    (payloads : Nat → Payload)
    (deliver : Nat → Payload → Provider → Bool) :
    (runSends (RoundRobinLoadBalancer.mk ps 0) payloads deliver
        ps.length).1.map SendResult.provider = ps.map (fun p => some p.name)
    ∧ (runSends (RoundRobinLoadBalancer.mk ps 0) payloads deliver
        ps.length).2 = RoundRobinLoadBalancer.mk ps 0 := by
  have hn : 0 < ps.length := List.length_pos.mpr hne
  obtain ⟨h1, h2⟩ := runSends_all_avail ps hav ps.length 0 payloads deliver hn
    (by omega)
  refine ⟨by simpa using h1, ?_⟩
  rw [h2]
  simp

/-- Witness for C1, at two enabled providers and an always-true transport. -/
theorem round_robin_rotation_fairness_witness :
    (runSends (RoundRobinLoadBalancer.mk [pA, pB] 0) (fun _ => payW)
        (fun _ _ _ => true) [pA, pB].length).1.map SendResult.provider =
      [pA, pB].map (fun p => some p.name)
    ∧ (runSends (RoundRobinLoadBalancer.mk [pA, pB] 0) (fun _ => payW)
        (fun _ _ _ => true) [pA, pB].length).2 =
      RoundRobinLoadBalancer.mk [pA, pB] 0 :=
  round_robin_rotation_fairness [pA, pB] (by decide) (by decide)
    (fun _ => payW) (fun _ _ _ => true)

/-- C2: in the quota-tracking provider mode (base.py availability), with every
endpoint initially within quota, (1) after any sequence of relay calls every
endpoint's used_quota is still at most its free_quota — so an endpoint with
quota limit k is charged by at most k successful deliveries; (2) selection
only ever picks an endpoint whose used_quota is strictly below its limit, so
an exhausted endpoint is skipped; (3) a relay that selects endpoint j adds
exactly 1 to its used_quota when the POST succeeds and 0 otherwise; and
(4) the selected position is the first available one in rotation order from
the cursor — every position visited before it was unavailable. -/
theorem quota_exhaustion_bound (qlb : QuotaRoundRobin) (posts : Nat → Bool)
    (n : Nat)
    (hq : ∀ p ∈ qlb.providers, p.config.used_quota ≤ p.config.free_quota) :
    (∀ p2 ∈ (qrun qlb posts n).providers,
        p2.config.used_quota ≤ p2.config.free_quota)
    ∧ (∀ j lb2, qlb.get_next_provider = (some j, lb2) →
        (qlb.providers.getD j default).config.used_quota <
          (qlb.providers.getD j default).config.free_quota)
    ∧ (∀ j lb2 ok, qlb.get_next_provider = (some j, lb2) →
        ((qlb.send ok).2.providers.getD j default).config.used_quota =
          (qlb.providers.getD j default).config.used_quota +
            (if ok then 1 else 0))
    ∧ (∀ j lb2, qlb.get_next_provider = (some j, lb2) →
        qlb.current_index < qlb.providers.length →
        ∃ m, m < qlb.providers.length ∧
          j = (qlb.current_index + m) % qlb.providers.length ∧
          ∀ m2, m2 < m →
            (qlb.providers.getD
              ((qlb.current_index + m2) % qlb.providers.length)
              default).is_available = false) := by
  refine ⟨qrun_quota_le n qlb posts hq, ?_, ?_, ?_⟩
  · intro j lb2 hg
    obtain ⟨hav, _, _, _⟩ := qgnp_some_spec qlb j lb2 hg
    exact gp_avail_quota _ hav
  · intro j lb2 ok hg
    obtain ⟨hav, hj, _, _⟩ := qgnp_some_spec qlb j lb2 hg
    rw [qsend_some qlb ok j lb2 hg]
    simp only
    rw [getD_set_self _ j _ default hj]
    cases ok with
    | true => simp [GenericProvider.send_webhook, GenericProvider.make_request]
    | false => simp [GenericProvider.send_webhook, GenericProvider.make_request]
  · intro j lb2 hg hidx
    obtain ⟨c, hscan⟩ := qgnp_some_scan qlb j lb2 hg
    exact scanLoop_first _ _ _ _ _ _ hidx hscan

/-- Witness for C2, at one enabled provider with free_quota 1 and two relay
calls whose POSTs succeed. -/
theorem quota_exhaustion_bound_witness :
    ((qrun (QuotaRoundRobin.mk [qp1] 0) (fun _ => true) 2).providers.getD 0
        default).config.used_quota ≤
      ((qrun (QuotaRoundRobin.mk [qp1] 0) (fun _ => true) 2).providers.getD 0
        default).config.free_quota
    ∧ ((QuotaRoundRobin.mk [qp1] 0).providers.getD 0
        default).config.used_quota <
      ((QuotaRoundRobin.mk [qp1] 0).providers.getD 0
        default).config.free_quota := by
  have h := quota_exhaustion_bound (QuotaRoundRobin.mk [qp1] 0)
    (fun _ => true) 2 (by decide)
  exact ⟨h.1 _ (getD_mem _ 0 default (by decide)),
    h.2.1 0 (QuotaRoundRobin.mk [qp1] 0) (by decide)⟩

/-- C3 counterexample: contrary to the claim, the transport itself mutates the
quota — make_request on a successful POST raises used_quota from 0 to 1 —
while the dispatcher's send path performs no quota update after observing a
successful delivery: its provider list is exactly the one it started with. -/
theorem transport_quota_side_effect_cx :
    (qp1.make_request true).1.config.used_quota = 1
    ∧ qp1.config.used_quota = 0
    ∧ ((RoundRobinLoadBalancer.mk [pA] 0).send payW
        (fun _ _ => true)).1.success = true
    ∧ ((RoundRobinLoadBalancer.mk [pA] 0).send payW
        (fun _ _ => true)).2.providers = [pA] := by
  decide

/-- C3 amended: the quota side effect lives inside the transport, not the
dispatcher — make_request increments used_quota by exactly one when the POST
succeeds (zero on failure) and returns the success flag; the dispatcher
performs no quota update of its own: the round-robin send leaves its provider
list untouched, and the quota-mode send's only provider-state change is
writing back the provider object returned by the transport call. -/
theorem transport_increments_quota (p : GenericProvider) (ok : Bool)
    (lb : RoundRobinLoadBalancer) (payload : Payload)
    (deliver : Payload → Provider → Bool) (qlb : QuotaRoundRobin) :
    (p.make_request ok).1.config.used_quota =
      p.config.used_quota + (if ok then 1 else 0)
    ∧ (p.make_request ok).2 = ok
    ∧ (lb.send payload deliver).2.providers = lb.providers
    ∧ (∀ j lb2, qlb.get_next_provider = (some j, lb2) →
        (qlb.send ok).2.providers =
          qlb.providers.set j
            ((qlb.providers.getD j default).make_request ok).1) := by
  refine ⟨?_, ?_, ?_, ?_⟩
  · cases ok <;> simp [GenericProvider.make_request]
  · cases ok <;> rfl
  · rw [rr_send_snd, rr_gnp_providers]
  · intro j lb2 hg
    rw [qsend_some qlb ok j lb2 hg]
    rfl

/-- Witness for the amended C3, at one quota provider and a successful POST. -/
theorem transport_increments_quota_witness :
    ((QuotaRoundRobin.mk [qp1] 0).send true).2.providers =
      [qp1].set 0 (([qp1].getD 0 default).make_request true).1 :=
  (transport_increments_quota qp1 true (RoundRobinLoadBalancer.mk [pA] 0) payW
    (fun _ _ => true) (QuotaRoundRobin.mk [qp1] 0)).2.2.2 0
    (QuotaRoundRobin.mk [qp1] 0) (by decide)

/-- C4 counterexample: contrary to the claim, the per-endpoint status
dictionary carries exactly the keys name, enabled, available and endpoint —
no quota numbers at all: looking up remaining, quota_used or quota_limit in
the status of a concrete dispatcher yields nothing. -/
theorem get_status_no_quota_cx :
    ((RoundRobinLoadBalancer.mk [pA] 0).get_status.providers.getD 0 []).map
        Prod.fst = ["name", "enabled", "available", "endpoint"]
    ∧ ((RoundRobinLoadBalancer.mk [pA] 0).get_status.providers.getD 0
        []).lookup "remaining" = none
    ∧ ((RoundRobinLoadBalancer.mk [pA] 0).get_status.providers.getD 0
        []).lookup "quota_used" = none
    ∧ ((RoundRobinLoadBalancer.mk [pA] 0).get_status.providers.getD 0
        []).lookup "quota_limit" = none := by
  decide

/-- C4 amended: get_status returns, for every endpoint in order, a dictionary
with its name, enabled flag, current is_available value and endpoint URL
(and nothing else — in particular no quota numbers), together with
total = the number of endpoints and available = the number of endpoints
whose is_available is true. -/
theorem get_status_fields (lb : RoundRobinLoadBalancer) :
    lb.get_status =
      { providers := lb.providers.map providerStatusEntry,
        total := lb.providers.length,
        available := lb.providers.countP (fun p => p.is_available) } := by
  unfold RoundRobinLoadBalancer.get_status
  rw [status_foldl]
  simp

/-- C5 counterexample: contrary to the claim, the factory accepts
"ROUND_ROBIN" — an identifier different from all three recognized strings —
because it lowercases its argument first; and an unknown strategy does not
keep the service from starting: startup_event catches the factory error and
completes normally, with the global balancer left unset (local-only mode). -/
theorem strategy_factory_cx :
    create_load_balancer "ROUND_ROBIN" [] =
      Except.ok (Balancer.round_robin (RoundRobinLoadBalancer.mk [] 0))
    ∧ startup_event [cfgA] "fastest_response" = none := by
  constructor
  · exact clb_of_toLower_rr "ROUND_ROBIN" [] (by decide)
  · unfold startup_event
    rw [if_neg (by decide),
      clb_invalid "fastest_response" (by decide) (by decide) (by decide)]

/-- C5 amended: the factory is case-insensitive — any identifier whose
lowercased form is one of the three recognized names yields the matching
balancer, and any other identifier yields the ValueError branch; moreover an
invalid strategy does not abort startup: for every configuration,
startup_event catches the error and completes with no balancer installed
(local-only mode). -/
theorem strategy_factory_total (s : String) (ps : List Provider) :
    (lowerStr s = "round_robin" →
      create_load_balancer s ps = Except.ok (Balancer.round_robin ⟨ps, 0⟩))
    ∧ (lowerStr s = "weighted_round_robin" →
      create_load_balancer s ps =
        Except.ok (Balancer.weighted_round_robin ⟨ps, 0⟩))
    ∧ (lowerStr s = "least_connections" →
      create_load_balancer s ps =
        Except.ok (Balancer.least_connections ⟨ps, 0⟩))
    ∧ (lowerStr s ≠ "round_robin" → lowerStr s ≠ "weighted_round_robin" →
      lowerStr s ≠ "least_connections" →
        create_load_balancer s ps =
          Except.error ("无效的负载均衡策略: " ++ s)
        ∧ ∀ configs, startup_event configs s = none) := by
  refine ⟨clb_of_toLower_rr s ps, clb_of_toLower_wrr s ps,
    clb_of_toLower_lc s ps, ?_⟩
  intro h1 h2 h3
  refine ⟨clb_invalid s h1 h2 h3 ps, ?_⟩
  intro configs
  unfold startup_event
  by_cases hE : ((configs.filter (fun c => c.enabled)).map Provider.mk).isEmpty = true
  · rw [if_pos hE]
  · rw [if_neg hE, clb_invalid s h1 h2 h3]

/-- Witness for the amended C5: all three recognized identifiers (in various
cases) return balancers, an unknown one errors, and startup still completes. -/
theorem strategy_factory_total_witness :
    create_load_balancer "round_robin" [] =
      Except.ok (Balancer.round_robin ⟨[], 0⟩)
    ∧ create_load_balancer "WEIGHTED_ROUND_ROBIN" [] =
      Except.ok (Balancer.weighted_round_robin ⟨[], 0⟩)
    ∧ create_load_balancer "Least_Connections" [] =
      Except.ok (Balancer.least_connections ⟨[], 0⟩)
    ∧ create_load_balancer "fastest_response" [] =
      Except.error ("无效的负载均衡策略: " ++ "fastest_response")
    ∧ startup_event [cfgA] "fastest_response" = none := by
  have h4 := (strategy_factory_total "fastest_response" []).2.2.2
    (by decide) (by decide) (by decide)
  exact ⟨(strategy_factory_total "round_robin" []).1 (by decide),
    (strategy_factory_total "WEIGHTED_ROUND_ROBIN" []).2.1 (by decide),
    (strategy_factory_total "Least_Connections" []).2.2.1 (by decide),
    h4.1, h4.2 [cfgA]⟩

/-- C6: if the transport call for the selected endpoint fails, the relay
leaves the provider list — hence every used_quota counter — unchanged,
returns the failure result naming that endpoint, the endpoint remains
available, and only the cursor moves one past it, so a later relay can select
the same endpoint again on its next turn in the rotation. -/
theorem failed_delivery_preserves_state (qlb : QuotaRoundRobin) (j : Nat)
    (lb2 : QuotaRoundRobin) (hg : qlb.get_next_provider = (some j, lb2)) :
    (qlb.send false).2.providers = qlb.providers
    ∧ (qlb.send false).1 =
        { success := false,
          provider := some (qlb.providers.getD j default).name,
          error := some "发送失败" }
    ∧ ((qlb.send false).2.providers.getD j default).config.used_quota =
        (qlb.providers.getD j default).config.used_quota
    ∧ ((qlb.send false).2.providers.getD j default).is_available = true
    ∧ (qlb.send false).2.current_index = (j + 1) % qlb.providers.length := by
  obtain ⟨hav, hj, hps, hc⟩ := qgnp_some_spec qlb j lb2 hg
  have hsend := qsend_some qlb false j lb2 hg
  have hpr : (qlb.send false).2.providers = qlb.providers := by
    rw [hsend]
    exact set_getD_self qlb.providers j default
  refine ⟨hpr, ?_, by rw [hpr], by rw [hpr]; exact hav, ?_⟩
  · rw [hsend]
    rfl
  · rw [hsend]
    exact hc

/-- Witness for C6, at one quota provider whose POST fails. -/
theorem failed_delivery_witness :
    ((QuotaRoundRobin.mk [qp1] 0).send false).2.providers = [qp1]
    ∧ ((QuotaRoundRobin.mk [qp1] 0).send false).1 =
        { success := false, provider := some ([qp1].getD 0 default).name,
          error := some "发送失败" } := by
  have h := failed_delivery_preserves_state (QuotaRoundRobin.mk [qp1] 0) 0
    (QuotaRoundRobin.mk [qp1] 0) (by decide)
  exact ⟨h.1, h.2.1⟩

/-- C7: on a non-empty dispatcher in which every endpoint is unavailable,
send returns the rejected result (success false, no provider) and leaves the
balancer state — cursor included — exactly as it was, so a subsequent call
with unchanged state returns the same result; the scan visits at most N
positions (the loop is fuel-bounded by N), and the conclusion holds for every
transport oracle, which shows no transport call influences the outcome. -/
theorem all_unavailable_rejected (ps : List Provider) (i : Nat)
    (hne : ps ≠ []) (hi : i < ps.length)
    (hall : ∀ p ∈ ps, p.is_available = false)
    (payload : Payload) (deliver : Payload → Provider → Bool) :
    (RoundRobinLoadBalancer.mk ps i).send payload deliver =
      (noProviderResult, RoundRobinLoadBalancer.mk ps i)
    ∧ noProviderResult.success = false
    ∧ noProviderResult.provider = none := by
  have hscan := scanLoop_all_false
    (fun k => (ps.getD k default).is_available) ps.length
    (all_false_avail ps hall) ps.length i hi
  rw [Nat.add_mod_right, Nat.mod_eq_of_lt hi] at hscan
  exact ⟨rr_send_of_scan_none ps i i payload deliver hne hscan, rfl, rfl⟩

/-- Witness for C7, at one disabled provider. -/
theorem all_unavailable_rejected_witness :
    (RoundRobinLoadBalancer.mk [pOff] 0).send payW (fun _ _ => true) =
      (noProviderResult, RoundRobinLoadBalancer.mk [pOff] 0) :=
  (all_unavailable_rejected [pOff] 0 (by decide) (by decide) (by decide)
    payW (fun _ _ => true)).1

/-- C8: send on a dispatcher with an empty endpoint list returns the rejected
result (success false, no provider selected) for every payload and transport
oracle, leaving the state unchanged; the operation is a total function, so it
cannot throw. -/
theorem empty_registry_rejected (i : Nat) (payload : Payload)
    (deliver : Payload → Provider → Bool) :
    (RoundRobinLoadBalancer.mk [] i).send payload deliver =
      (noProviderResult, RoundRobinLoadBalancer.mk [] i)
    ∧ noProviderResult.success = false
    ∧ noProviderResult.provider = none :=
  ⟨rfl, rfl, rfl⟩

/-- C9: for every provider list, initial cursor, payload and transport
oracle, the weighted_round_robin and least_connections balancers behave
exactly like the round_robin balancer: same send result, same resulting
provider list and cursor, and the same get_status snapshot. -/
theorem fallback_strategies_match_round_robin (ps : List Provider) (i : Nat)
    (payload : Payload) (deliver : Payload → Provider → Bool) :
    ((WeightedRoundRobinLoadBalancer.mk ps i).send payload deliver).1 =
      ((RoundRobinLoadBalancer.mk ps i).send payload deliver).1
    ∧ ((WeightedRoundRobinLoadBalancer.mk ps i).send payload deliver).2.providers =
      ((RoundRobinLoadBalancer.mk ps i).send payload deliver).2.providers
    ∧ ((WeightedRoundRobinLoadBalancer.mk ps i).send payload deliver).2.current_index =
      ((RoundRobinLoadBalancer.mk ps i).send payload deliver).2.current_index
    ∧ ((LeastConnectionsLoadBalancer.mk ps i).send payload deliver).1 =
      ((RoundRobinLoadBalancer.mk ps i).send payload deliver).1
    ∧ ((LeastConnectionsLoadBalancer.mk ps i).send payload deliver).2.providers =
      ((RoundRobinLoadBalancer.mk ps i).send payload deliver).2.providers
    ∧ ((LeastConnectionsLoadBalancer.mk ps i).send payload deliver).2.current_index =
      ((RoundRobinLoadBalancer.mk ps i).send payload deliver).2.current_index
    ∧ (WeightedRoundRobinLoadBalancer.mk ps i).get_status =
      (RoundRobinLoadBalancer.mk ps i).get_status
    ∧ (LeastConnectionsLoadBalancer.mk ps i).get_status =
      (RoundRobinLoadBalancer.mk ps i).get_status := by
  by_cases hne : ps = []
  · subst hne
    exact ⟨rfl, rfl, rfl, rfl, rfl, rfl, rfl, rfl⟩
  · rw [wrr_send_parts ps i payload deliver hne,
      lc_send_parts ps i payload deliver hne,
      rr_send_parts ps i payload deliver hne]
    exact ⟨rfl, rfl, rfl, rfl, rfl, rfl, rfl, rfl⟩

/-- C10: with N >= 1 providers and the cursor in [0, N), the cursor is again
in [0, N) after get_next_provider and after send — for all three balancer
classes — and when no provider is available the scan advances the cursor N
times modulo N, leaving it exactly where it started. -/
theorem cursor_stays_in_range (ps : List Provider) (i : Nat)
    (hi : i < ps.length) (payload : Payload)
    (deliver : Payload → Provider → Bool) :
    (RoundRobinLoadBalancer.mk ps i).get_next_provider.2.current_index <
      ps.length
    ∧ ((RoundRobinLoadBalancer.mk ps i).send payload
        deliver).2.current_index < ps.length
    ∧ ((WeightedRoundRobinLoadBalancer.mk ps i).send payload
        deliver).2.current_index < ps.length
    ∧ ((LeastConnectionsLoadBalancer.mk ps i).send payload
        deliver).2.current_index < ps.length
    ∧ ((∀ p ∈ ps, p.is_available = false) →
        (RoundRobinLoadBalancer.mk ps i).get_next_provider.2.current_index = i
        ∧ ((RoundRobinLoadBalancer.mk ps i).send payload
            deliver).2.current_index = i) := by
  have hn : 0 < ps.length := Nat.lt_of_le_of_lt (Nat.zero_le _) hi
  have hne : ps ≠ [] := by
    intro h
    rw [h] at hi
    simp at hi
  have hclt := scanLoop_cursor_lt (fun k => (ps.getD k default).is_available)
    ps.length hn ps.length i hi
  have hg := rr_gnp_cursor ps i hne
  refine ⟨by rw [hg]; exact hclt, by rw [rr_send_snd, hg]; exact hclt,
    by rw [wrr_send_parts ps i payload deliver hne]; exact hclt,
    by rw [lc_send_parts ps i payload deliver hne]; exact hclt, ?_⟩
  intro hall
  have hscan := scanLoop_all_false
    (fun k => (ps.getD k default).is_available) ps.length
    (all_false_avail ps hall) ps.length i hi
  rw [Nat.add_mod_right, Nat.mod_eq_of_lt hi] at hscan
  constructor
  · rw [hg, hscan]
  · rw [rr_send_snd, hg, hscan]

/-- Witness for C10, at one disabled provider (all-unavailable branch
included). -/
theorem cursor_stays_in_range_witness :
    (RoundRobinLoadBalancer.mk [pOff] 0).get_next_provider.2.current_index = 0
    ∧ (RoundRobinLoadBalancer.mk [pOff] 0).get_next_provider.2.current_index <
      [pOff].length := by
  have h := cursor_stays_in_range [pOff] 0 (by decide) payW (fun _ _ => true)
  exact ⟨(h.2.2.2.2 (by decide)).1, h.1⟩

end AlertLB
